import Mathlib

/-!
The glorytun `path` command (src/path.c).

A shallow embedding of `gt_path_status` and `gt_path` from `src/path.c`,
together with the parts of the control channel they talk to, and the
properties of the command that follow from the code.

The control channel, the terminal and the option parser are the environment
of the command.  They are represented by a `World`: what `send` and successive
`recv` calls will return, what `ctl_connect` and `isatty` return, the current
`errno`, and the chronological list of observable events the command produced.
-/

namespace Glorytun

/-! ## Platform constants -/

/-- Value of `EAGAIN` in the Linux `errno.h`. It is the continuation sentinel. -/
def EAGAIN : Int := 11

/-- Value of `EBADMSG` in the Linux `errno.h`. -/
def EBADMSG : Int := 74

/-- Value of `IFNAMSIZ` in the Linux `net/if.h`. -/
def IFNAMSIZ : Nat := 16

/-- Modelled from the spec: `CTL_ERROR_NONE` of `ctl.h` (not in the sources),
a negative return of `ctl_connect` other than -1 meaning that no device was found. -/
def CTL_ERROR_NONE : Int := -2

/-- Modelled from the spec: `CTL_ERROR_MANY` of `ctl.h` (not in the sources),
a negative return of `ctl_connect` other than -1 meaning that several devices were found. -/
def CTL_ERROR_MANY : Int := -3

/-! ## Data model -/

/-- Modelled from the spec: `enum mud_state` of `mud.h` (not in the sources).
`MUD_EMPTY` is the zero value and the filter wildcard; `other` stands for any
value of the integer field that is none of the named enumerators. -/
inductive mud_state where
  | MUD_EMPTY
  | MUD_DOWN
  | MUD_BACKUP
  | MUD_UP
  | other (raw : Nat)
deriving DecidableEq, Repr

/-- Modelled from the spec: `enum ctl_type` of `ctl.h` (not in the sources).
`CTL_NONE` is the zero value; `other` stands for any value of the integer
field that is none of the named enumerators. -/
inductive ctl_type where
  | CTL_NONE
  | CTL_STATE
  | CTL_PATH_STATUS
  | other (raw : Nat)
deriving DecidableEq, Repr

/-- Modelled from the spec: `struct mud_path` of `mud.h` (not in the sources),
with the fields that `gt_path_status` and `gt_path_print_status` read.
`interface_name` is the raw content of the character array. -/
structure mud_path where
  state : mud_state := .MUD_EMPTY
  ok : Nat := 0
  interface_name : List Nat := []
  remote_address : List Nat := []
  mtu_ok : Nat := 0
  rtt_val : Nat := 0
  rtt_var : Nat := 0
  conf_fixed_rate : Nat := 0
  conf_preferred : Nat := 0
  conf_loss_limit : Nat := 0
  conf_rtt_limit : Nat := 0
  conf_beat : Nat := 0
  tx_rate : Nat := 0
  tx_loss : Nat := 0
  tx_total : Nat := 0
  rx_rate : Nat := 0
  rx_loss : Nat := 0
  rx_total : Nat := 0
deriving DecidableEq, Repr

/-- Modelled from the spec: the `path` member of `struct ctl_msg` of `ctl.h`
(not in the sources), with the fields that `gt_path` writes.
`interface_name` is the raw content of a character array of `IFNAMSIZ` bytes,
`rtt_limit` is the 64-bit value held by the field. A zero-initialised message
has an all-zero name array. -/
structure ctl_path where
  interface_name : List Nat := List.replicate IFNAMSIZ 0
  state : mud_state := .MUD_EMPTY
  rate_tx : Nat := 0
  rate_rx : Nat := 0
  beat : Nat := 0
  preferred : Nat := 0
  loss_limit : Nat := 0
  rtt_limit : Nat := 0
  fixed_rate : Nat := 0
deriving DecidableEq, Repr

/-- Modelled from the spec: `struct ctl_msg` of `ctl.h` (not in the sources):
the envelope, with its type, result code, request payload and, for
`CTL_PATH_STATUS` responses, one path record. The defaults are the
zero-initialised message. -/
structure ctl_msg where
  type : ctl_type := .CTL_NONE
  reply : Int := 0
  ret : Int := 0
  path : ctl_path := {}
  path_status : mud_path := {}
deriving DecidableEq, Repr

/-- Messages written by `gt_log` in `gt_path`. -/
inductive LogMsg where
  | no_device
  | please_choose_a_device
  | couldnt_connect
  | please_specify_an_interface
  | interface_name_too_long
deriving DecidableEq, Repr

/-- Observable actions of the command, in the order they happen. -/
inductive Event where
  | ctl_connect (fd : Int)
  | send (m : ctl_msg)
  | recv
  | print_status (p : mud_path) (term : Bool)
  | gt_log (m : LogMsg)
  | perror (errno : Int)
  | ctl_delete (fd : Int)
deriving DecidableEq, Repr

/-- What one call of `recv` does: fail with -1 and an `errno`, or fill `res`. -/
inductive RecvResult where
  | error (errno : Int)
  | msg (res : ctl_msg)
deriving DecidableEq, Repr

/-- The environment of the command. `inbox` lists what the successive `recv`
calls deliver (when it is empty `recv` blocks), `send_err` is `none` when
`send` succeeds and the `errno` it sets otherwise. -/
structure World where
  inbox : List RecvResult := []
  send_err : Option Int := none
  connect_ret : Int := 3
  isatty : Bool := false
  errno : Int := 0
  events : List Event := []
deriving DecidableEq, Repr

/-- How a call ends: it returns a value, it blocks for ever in `recv`, or it
writes `path[index]` outside the array `path[MUD_PATH_MAX]`, after which the
behaviour of the C program is undefined. -/
inductive Outcome (α : Type) where
  | ret (v : α) (w : World)
  | blocked (w : World)
  | undefined (index : Nat) (w : World)
deriving DecidableEq, Repr

/-- The world in which a call ended. -/
def Outcome.world {α : Type} : Outcome α → World
  | .ret _ w => w
  | .blocked w => w
  | .undefined _ w => w

/-- The returned value, when the call returned. -/
def Outcome.val {α : Type} : Outcome α → Option α
  | .ret v _ => some v
  | .blocked _ => none
  | .undefined _ _ => none

/-- Number of `send` calls in a trace. -/
def sends (es : List Event) : Nat :=
  (es.filter (fun e => match e with | .send _ => true | _ => false)).length

/-- Number of `recv` calls in a trace. -/
def recvs (es : List Event) : Nat :=
  (es.filter (fun e => match e with | .recv => true | _ => false)).length

/-- Number of `ctl_delete` calls in a trace. -/
def deletes (es : List Event) : Nat :=
  (es.filter (fun e => match e with | .ctl_delete _ => true | _ => false)).length

/-- The messages passed to `send`, in order. -/
def sent (es : List Event) : List ctl_msg :=
  es.filterMap (fun e => match e with | .send m => some m | _ => none)

/-- The records handed to `gt_path_print_status`, in order. -/
def printed (es : List Event) : List mud_path :=
  es.filterMap (fun e => match e with | .print_status p _ => some p | _ => none)

/-! ## C strings -/

/-- The string held by a character array: the bytes before the first NUL. -/
def cstr (buf : List Nat) : List Nat := buf.takeWhile (fun b => b != 0)

/-- The function `strlen` on a character array. -/
def strlen (buf : List Nat) : Nat := (cstr buf).length

/-- Comparison of two strings byte by byte. -/
def strcmp_bytes : List Nat → List Nat → Int
  | [], [] => 0
  | [], b :: _ => -(b : Int)
  | a :: _, [] => (a : Int)
  | a :: as, b :: bs => if a = b then strcmp_bytes as bs else (a : Int) - (b : Int)

/-- The function `strcmp` on two character arrays. -/
def strcmp (s1 s2 : List Nat) : Int := strcmp_bytes (cstr s1) (cstr s2)

/-- The call `strncpy (dst, src, n)` where `src` is the content of the source string:
exactly `n` bytes of `dst` are written, the first `n` bytes of `src`, padded
with NUL when `src` is shorter. -/
def strncpy (dst src : List Nat) (n : Nat) : List Nat :=
  src.take n ++ List.replicate (n - src.length) 0 ++ dst.drop n

/-! ## gt_path_status (path.c, lines 86-129) -/

/-- The receive loop of `gt_path_status` (lines 99-115). `path` holds the
`count` records stored so far, so that `count = path.length`. The result
`none` is `return -1`, the result `some path` is `break`. -/
def gt_path_status_recv (MUD_PATH_MAX : Nat) (req : ctl_msg) :
    List RecvResult → List mud_path → World → Outcome (Option (List mud_path))
  | [], _, w => .blocked w
  | r :: rest, path, w =>
    let w1 : World := { w with inbox := rest, events := w.events ++ [Event.recv] }
    match r with
    | .error e => .ret none { w1 with errno := e }
    | .msg res =>
      if res.type ≠ req.type then
        .ret none { w1 with errno := EBADMSG }
      else if res.ret = EAGAIN then
        if path.length < MUD_PATH_MAX then
          gt_path_status_recv MUD_PATH_MAX req rest (path ++ [res.path_status]) w1
        else
          .undefined path.length w1
      else if res.ret ≠ 0 then
        .ret none { w1 with errno := res.ret }
      else
        .ret (some path) w1

/-- The output loop of `gt_path_status` (lines 119-126). The name that is
compared is the one of the local request `req`. -/
def gt_path_status_print (state : mud_state) (req : ctl_msg) (term : Bool) :
    List mud_path → World → World
  | [], w => w
  | p :: ps, w =>
    if (state = .MUD_EMPTY ∨ p.state = state) ∧
        (strlen req.path.interface_name = 0 ∨
          strcmp req.path.interface_name p.interface_name = 0) then
      gt_path_status_print state req term ps
        { w with events := w.events ++ [Event.print_status p term] }
    else
      gt_path_status_print state req term ps w

/-- The local request `req` of `gt_path_status` (lines 89-91): only its type
is set, every other field is zero. -/
def gt_path_status_req : ctl_msg := { type := .CTL_PATH_STATUS }

/-- The function `gt_path_status (fd, state, interface_name)`. -/
def gt_path_status (MUD_PATH_MAX : Nat) (w : World) (state : mud_state)
    (_interface_name : List Nat) : Outcome Int :=
  let req : ctl_msg := gt_path_status_req
  let w1 : World := { w with events := w.events ++ [Event.send req] }
  match w1.send_err with
  | some e => .ret (-1) { w1 with errno := e }
  | none =>
    match gt_path_status_recv MUD_PATH_MAX req w1.inbox [] w1 with
    | .blocked w2 => .blocked w2
    | .undefined i w2 => .undefined i w2
    | .ret none w2 => .ret (-1) w2
    | .ret (some path) w2 =>
      let term := w2.isatty
      .ret 0 (gt_path_status_print state req term path w2)

/-! ## Byte order -/

/-- The `n` low-order bytes of a number, least significant byte first. -/
def le_bytes : Nat → Nat → List Nat
  | 0, _ => []
  | n + 1, x => x % 256 :: le_bytes n (x / 256)

/-- The number held by a sequence of bytes, least significant byte first. -/
def le_decode : List Nat → Nat
  | [] => 0
  | b :: bs => b + 256 * le_decode bs

/-- Reversal of the eight bytes of a 64-bit value. -/
def bswap64 (x : Nat) : Nat := le_decode (le_bytes 8 x).reverse

/-- The function `htobe64` of `endian.h`, applied to the argument converted to `uint64_t`:
a byte swap on a little-endian host, the identity on a big-endian host. -/
def htobe64 (little_endian : Bool) (x : Nat) : Nat :=
  if little_endian then bswap64 (x % 2 ^ 64) else x % 2 ^ 64

/-- The eight bytes, in increasing address order, that hold a 64-bit value in
the memory of the host (and so in the message that is sent). -/
def store64 (little_endian : Bool) (v : Nat) : List Nat :=
  if little_endian then le_bytes 8 v else (le_bytes 8 v).reverse

/-- The 64-bit big-endian encoding of a number: most significant byte first. -/
def be64_encode (x : Nat) : List Nat :=
  [x / 2 ^ 56 % 256, x / 2 ^ 48 % 256, x / 2 ^ 40 % 256, x / 2 ^ 32 % 256,
   x / 2 ^ 24 % 256, x / 2 ^ 16 % 256, x / 2 ^ 8 % 256, x % 256]

/-- The number that a sequence of bytes encodes in big-endian order. -/
def be_decode (bs : List Nat) : Nat := bs.foldl (fun acc b => acc * 256 + b) 0

/-! ## gt_path (path.c, lines 131-249) -/

/-- The result of `argz (pathz, argc, argv)`: its return value and what the
option tables `pathz` and `ratez` hold afterwards. The Boolean fields are what
`argz_is_set` answers for the option of that name; `ifname` and `dev` are
`none` for a NULL pointer and else the content of the string. -/
structure Args where
  argz_ret : Int := 0
  ifname : Option (List Nat) := none
  dev : Option (List Nat) := none
  up : Bool := false
  backup : Bool := false
  down : Bool := false
  rate : Bool := false
  fixed : Bool := false
  auto : Bool := false
  rate_tx : Nat := 0
  rate_rx : Nat := 0
  beat_set : Bool := false
  beat : Nat := 0
  preferred : Bool := false
  losslimit_set : Bool := false
  loss_limit : Nat := 0
  rttlimit_set : Bool := false
  rtt_limit : Nat := 0
deriving DecidableEq, Repr

/-- The variable `set` of `gt_path` (lines 185-188). -/
def gt_path_set (a : Args) : Bool :=
  a.rate || a.beat_set || a.losslimit_set || a.rttlimit_set

/-- Lines 139-144 of `gt_path`: the request `req` as initialised, with the
values that `argz` stored in it through the option tables. -/
def gt_path_req_init (a : Args) : ctl_msg :=
  { type := .CTL_STATE,
    path := { state := .MUD_EMPTY, rate_tx := a.rate_tx, rate_rx := a.rate_rx, beat := a.beat } }

/-- Line 203 of `gt_path`: the copy of the interface name into the request. -/
def gt_path_req_ifname (ifname : List Nat) (req : ctl_msg) : ctl_msg :=
  { req with path := { req.path with
      interface_name := strncpy req.path.interface_name ifname 15 } }

/-- Lines 206-212 of `gt_path`: the state asked for by `up`, `backup` or `down`. -/
def gt_path_req_state (a : Args) (req : ctl_msg) : ctl_msg :=
  if a.up then { req with path := { req.path with state := .MUD_UP } }
  else if a.backup then { req with path := { req.path with state := .MUD_BACKUP } }
  else if a.down then { req with path := { req.path with state := .MUD_DOWN } }
  else req

/-- Lines 214-217 of `gt_path`: the preferred flag. -/
def gt_path_req_preferred (a : Args) (req : ctl_msg) : ctl_msg :=
  if a.preferred then { req with path := { req.path with preferred := 1 } } else req

/-- Lines 219-222 of `gt_path`: the loss limit, computed on `unsigned int`. -/
def gt_path_req_loss_limit (a : Args) (req : ctl_msg) : ctl_msg :=
  if a.loss_limit ≠ 0 then
    { req with path := { req.path with loss_limit := a.loss_limit * 255 % 2 ^ 32 / 100 } }
  else req

/-- Lines 224-227 of `gt_path`: the RTT limit. -/
def gt_path_req_rtt_limit (little_endian : Bool) (a : Args) (req : ctl_msg) : ctl_msg :=
  if a.rtt_limit ≠ 0 then
    { req with path := { req.path with rtt_limit := htobe64 little_endian a.rtt_limit } }
  else req

/-- Lines 229-233 of `gt_path`: the rate mode. -/
def gt_path_req_fixed_rate (a : Args) (req : ctl_msg) : ctl_msg :=
  if a.fixed then { req with path := { req.path with fixed_rate := 3 } }
  else if a.auto then { req with path := { req.path with fixed_rate := 1 } }
  else req

/-- Lines 206-233 of `gt_path`: the fields of the request set from the options,
in the order of the source. -/
def gt_path_req_fill (little_endian : Bool) (a : Args) (req : ctl_msg) : ctl_msg :=
  gt_path_req_fixed_rate a
    (gt_path_req_rtt_limit little_endian a
      (gt_path_req_loss_limit a
        (gt_path_req_preferred a
          (gt_path_req_state a req))))

/-- Lines 139-144 and 185-233 of `gt_path`: the validation of the options and
the construction of the request `req`. An error is the message logged before
`return 1`. -/
def gt_path_req (little_endian : Bool) (a : Args) : Except LogMsg ctl_msg :=
  let req : ctl_msg := gt_path_req_init a
  if gt_path_set a ∧ a.ifname = none then
    .error .please_specify_an_interface
  else
    let named : Except LogMsg ctl_msg :=
      match a.ifname with
      | none => .ok req
      | some ifname =>
        if ifname.length > IFNAMSIZ then
          .error .interface_name_too_long
        else
          .ok (gt_path_req_ifname ifname req)
    match named with
    | .error m => .error m
    | .ok req =>
      .ok (gt_path_req_fill little_endian a req)

/-- Modelled from the spec: `ctl_reply (fd, res, req)` of `ctl.c` (not in the
sources): exactly one send and one receive; a failure of either, a response
whose type differs from the type of the request (`EBADMSG`) or a nonzero result
code (which becomes `errno`) give -1, a zero result code gives 0. -/
def ctl_reply (w : World) (req : ctl_msg) : Outcome Int :=
  let w1 : World := { w with events := w.events ++ [Event.send req] }
  match w1.send_err with
  | some e => .ret (-1) { w1 with errno := e }
  | none =>
    match w1.inbox with
    | [] => .blocked w1
    | r :: rest =>
      let w2 : World := { w1 with inbox := rest, events := w1.events ++ [Event.recv] }
      match r with
      | .error e => .ret (-1) { w2 with errno := e }
      | .msg res =>
        if res.type ≠ req.type then .ret (-1) { w2 with errno := EBADMSG }
        else if res.ret ≠ 0 then .ret (-1) { w2 with errno := res.ret }
        else .ret 0 w2

/-- Lines 243-248 of `gt_path`, reached when the exchange returned `ret`:
report, release the channel, return `!!ret`. -/
def gt_path_finish (fd : Int) : Outcome Int → Outcome Int
  | .blocked w => .blocked w
  | .undefined i w => .undefined i w
  | .ret ret w =>
    let w1 : World :=
      if ret = -1 then { w with events := w.events ++ [Event.perror w.errno] } else w
    let w2 : World := { w1 with events := w1.events ++ [Event.ctl_delete fd] }
    .ret (if ret ≠ 0 then 1 else 0) w2

/-- The function `gt_path (argc, argv)`, given the result of option parsing. -/
def gt_path (MUD_PATH_MAX : Nat) (little_endian : Bool) (w : World) (a : Args) :
    Outcome Int :=
  if a.argz_ret ≠ 0 then .ret 1 w
  else
    let fd := w.connect_ret
    let w1 : World := { w with events := w.events ++ [Event.ctl_connect fd] }
    if fd < 0 then
      let e : Event :=
        if fd = -1 then Event.perror w1.errno
        else if fd = CTL_ERROR_NONE then Event.gt_log .no_device
        else if fd = CTL_ERROR_MANY then Event.gt_log .please_choose_a_device
        else Event.gt_log .couldnt_connect
      .ret 1 { w1 with events := w1.events ++ [e] }
    else
      match gt_path_req little_endian a with
      | .error m => .ret 1 { w1 with events := w1.events ++ [Event.gt_log m] }
      | .ok req =>
        if a.ifname = none ∨ (req.path.state = .MUD_EMPTY ∧ gt_path_set a = false) then
          gt_path_finish fd
            (gt_path_status MUD_PATH_MAX w1 req.path.state req.path.interface_name)
        else
          gt_path_finish fd (ctl_reply w1 req)

/-! ## Concrete inputs -/

/-- The bytes of "eth0". -/
def eth0 : List Nat := [101, 116, 104, 48]

/-- The bytes of "eth1". -/
def eth1 : List Nat := [101, 116, 104, 49]

/-- A record for the path on `eth0`, in state UP. -/
def rec_eth0 : mud_path :=
  { state := .MUD_UP, ok := 1, interface_name := eth0 ++ List.replicate 12 0, mtu_ok := 1400 }

/-- A record for the path on `eth1`, in state DOWN. -/
def rec_eth1 : mud_path :=
  { state := .MUD_DOWN, interface_name := eth1 ++ List.replicate 12 0, mtu_ok := 1400 }

/-- A well-typed continuation envelope carrying one record. -/
def continuation (p : mud_path) : ctl_msg :=
  { type := .CTL_PATH_STATUS, reply := 1, ret := EAGAIN, path_status := p }

/-- A well-typed success-terminal envelope. -/
def terminal : ctl_msg := { type := .CTL_PATH_STATUS, reply := 1, ret := 0 }

/-- A daemon that answers with the records of `eth0` (UP) and `eth1` (DOWN). -/
def daemon_two : World :=
  { inbox := [.msg (continuation rec_eth0), .msg (continuation rec_eth1), .msg terminal] }

/-- An envelope of another type than the request. -/
def bad_type : ctl_msg := { type := .CTL_STATE, reply := 1, ret := 0 }

/-- A well-typed envelope carrying the server error 5. -/
def bad_code : ctl_msg := { type := .CTL_PATH_STATUS, reply := 1, ret := 5 }

/-- A daemon that answers with one record and then a message of another type. -/
def daemon_mismatch : World :=
  { inbox := [.msg (continuation rec_eth0), .msg bad_type] }

/-- A daemon that answers with one record and then a server error. -/
def daemon_error : World :=
  { inbox := [.msg (continuation rec_eth0), .msg bad_code] }

/-- The options of `path eth0 losslimit 50`. -/
def args_loss_50 : Args := { ifname := some eth0, losslimit_set := true, loss_limit := 50 }

/-- The options of `path eth0 losslimit 100`. -/
def args_loss_100 : Args := { ifname := some eth0, losslimit_set := true, loss_limit := 100 }

/-- The options of `path eth0 rttlimit 1`. -/
def args_rtt_1 : Args := { ifname := some eth0, rttlimit_set := true, rtt_limit := 1 }

/-- The options of `path eth0 rttlimit 250`. -/
def args_rtt_250 : Args := { ifname := some eth0, rttlimit_set := true, rtt_limit := 250 }

/-- The options of `path eth0`. -/
def args_eth0 : Args := { ifname := some eth0 }

/-- The options of `path beat 1000` (no interface name). -/
def args_beat : Args := { beat_set := true, beat := 1000 }

/-- A name of 15 bytes, "abcdefghijklmno". -/
def name15 : List Nat := [97, 98, 99, 100, 101, 102, 103, 104, 105, 106, 107, 108, 109, 110, 111]

/-- A name of 16 bytes, "abcdefghijklmnop". -/
def name16 : List Nat := name15 ++ [112]

/-- A name of 17 bytes, "abcdefghijklmnopq". -/
def name17 : List Nat := name16 ++ [113]

/-- The options of `path abcdefghijklmno` (15 bytes). -/
def args_name15 : Args := { ifname := some name15 }

/-- The options of `path abcdefghijklmnop` (16 bytes). -/
def args_name16 : Args := { ifname := some name16 }

/-- The options of `path abcdefghijklmnopq` (17 bytes). -/
def args_name17 : Args := { ifname := some name17 }

/-! ## Counting events -/

theorem sends_append (a b : List Event) : sends (a ++ b) = sends a + sends b := by
  simp [sends]

theorem recvs_append (a b : List Event) : recvs (a ++ b) = recvs a + recvs b := by
  simp [recvs]

theorem deletes_append (a b : List Event) : deletes (a ++ b) = deletes a + deletes b := by
  simp [deletes]

theorem printed_append (a b : List Event) : printed (a ++ b) = printed a ++ printed b := by
  simp [printed]

theorem sent_append (a b : List Event) : sent (a ++ b) = sent a ++ sent b := by
  simp [sent]

theorem sends_replicate_recv (n : Nat) : sends (List.replicate n Event.recv) = 0 := by
  induction n with
  | zero => rfl
  | succ n ih => simp [List.replicate_succ, sends]

theorem recvs_replicate_recv (n : Nat) : recvs (List.replicate n Event.recv) = n := by
  induction n with
  | zero => rfl
  | succ n ih => simp [List.replicate_succ, recvs]

theorem printed_replicate_recv (n : Nat) : printed (List.replicate n Event.recv) = [] := by
  induction n with
  | zero => rfl
  | succ n ih => simp [List.replicate_succ, printed]

theorem sends_print_status (ps : List mud_path) (term : Bool) :
    sends (ps.map (fun p => Event.print_status p term)) = 0 := by
  induction ps with
  | nil => rfl
  | cons p ps ih => simp [sends]

theorem recvs_print_status (ps : List mud_path) (term : Bool) :
    recvs (ps.map (fun p => Event.print_status p term)) = 0 := by
  induction ps with
  | nil => rfl
  | cons p ps ih => simp [recvs]

theorem printed_print_status (ps : List mud_path) (term : Bool) :
    printed (ps.map (fun p => Event.print_status p term)) = ps := by
  induction ps with
  | nil => rfl
  | cons p ps ih => simpa [printed] using ih

theorem sends_send (m : ctl_msg) : sends [Event.send m] = 1 := rfl

theorem recvs_send (m : ctl_msg) : recvs [Event.send m] = 0 := rfl

theorem printed_send (m : ctl_msg) : printed [Event.send m] = [] := rfl

/-- The wildcard state keeps every record. -/
theorem filter_wildcard (ps : List mud_path) :
    List.filter (fun p => decide (mud_state.MUD_EMPTY = mud_state.MUD_EMPTY ∨
      p.state = mud_state.MUD_EMPTY)) ps = ps := by
  simp

/-! ## The receive loop -/

/-- After `envs.length` well-typed continuation envelopes that fit in the array,
the loop is in the state where all their records are stored. -/
theorem recv_continuations (MUD_PATH_MAX : Nat) (req : ctl_msg) (envs : List ctl_msg)
    (hcont : ∀ e ∈ envs, e.type = req.type ∧ e.ret = EAGAIN) :
    ∀ (rest : List RecvResult) (path : List mud_path) (w : World),
      path.length + envs.length ≤ MUD_PATH_MAX →
      w.inbox = envs.map RecvResult.msg ++ rest →
      gt_path_status_recv MUD_PATH_MAX req (envs.map RecvResult.msg ++ rest) path w =
        gt_path_status_recv MUD_PATH_MAX req rest (path ++ envs.map (fun e => e.path_status))
          { w with inbox := rest,
                   events := w.events ++ List.replicate envs.length Event.recv } := by
  induction envs with
  | nil =>
    intro rest path w _ hin
    simp at hin
    simp [← hin]
  | cons e envs ih =>
    intro rest path w hlen hin
    have he := hcont e (List.mem_cons_self _ _)
    have hrest : ∀ x ∈ envs, x.type = req.type ∧ x.ret = EAGAIN :=
      fun x hx => hcont x (List.mem_cons_of_mem _ hx)
    have hlt : path.length < MUD_PATH_MAX := by
      simp only [List.length_cons] at hlen; omega
    simp only [List.map_cons, List.cons_append, gt_path_status_recv, he.1, he.2, ne_eq,
      not_true_eq_false, if_false, if_true, hlt, List.append_eq]
    rw [ih hrest rest (path ++ [e.path_status])
      { w with inbox := envs.map RecvResult.msg ++ rest, events := w.events ++ [Event.recv] }
      (by simp only [List.length_append, List.length_cons, List.length_nil] at hlen ⊢; omega)
      rfl]
    simp [List.replicate_succ, List.append_assoc]

/-- The output loop hands over, in order, the records that pass the state
filter, when the name held by the request is empty. -/
theorem print_loop (state : mud_state) (req : ctl_msg) (term : Bool)
    (hname : strlen req.path.interface_name = 0) :
    ∀ (path : List mud_path) (w : World),
      gt_path_status_print state req term path w =
        { w with events := (w.events ++
            List.map (fun p => Event.print_status p term)
              (List.filter (fun p => decide (state = .MUD_EMPTY ∨ p.state = state)) path)) } := by
  intro path
  induction path with
  | nil => intro w; simp [gt_path_status_print]
  | cons p ps ih =>
    intro w
    by_cases h : state = .MUD_EMPTY ∨ p.state = state
    · simp [gt_path_status_print, hname, h, ih, List.filter_cons]
    · simp [gt_path_status_print, h, ih, List.filter_cons]

/-- The request that `gt_path_status` sends holds an empty interface name. -/
theorem status_req_name_empty : strlen gt_path_status_req.path.interface_name = 0 := by
  decide

/-- The request that `gt_path_status` sends has type `CTL_PATH_STATUS`. -/
theorem status_req_type : gt_path_status_req.type = ctl_type.CTL_PATH_STATUS := rfl

/-- A drained enumeration: after the continuation envelopes `envs` and a
success-terminal envelope, `gt_path_status` returns 0 and has handed over the
records that pass the state filter. -/
theorem status_drained (MUD_PATH_MAX : Nat) (w : World) (state : mud_state)
    (interface_name : List Nat) (envs : List ctl_msg) (last : ctl_msg)
    (extra : List RecvResult)
    (hN : envs.length ≤ MUD_PATH_MAX)
    (hcont : ∀ e ∈ envs, e.type = ctl_type.CTL_PATH_STATUS ∧ e.ret = EAGAIN)
    (hlast : last.type = ctl_type.CTL_PATH_STATUS ∧ last.ret = 0)
    (hsend : w.send_err = none)
    (hin : w.inbox = envs.map RecvResult.msg ++ RecvResult.msg last :: extra) :
    gt_path_status MUD_PATH_MAX w state interface_name =
      Outcome.ret 0
        { w with
          inbox := extra,
          events := (w.events ++ [Event.send gt_path_status_req] ++
            List.replicate (envs.length + 1) Event.recv ++
            List.map (fun p => Event.print_status p w.isatty)
              (List.filter (fun p => decide (state = .MUD_EMPTY ∨ p.state = state))
                (envs.map (fun e => e.path_status)))) } := by
  obtain ⟨inbox, send_err, connect_ret, isatty, errno, events⟩ := w
  simp only at hsend hin
  subst hsend hin
  have h := recv_continuations MUD_PATH_MAX gt_path_status_req envs hcont
    (RecvResult.msg last :: extra) []
    { inbox := envs.map RecvResult.msg ++ RecvResult.msg last :: extra, send_err := none,
      connect_ret := connect_ret, isatty := isatty, errno := errno,
      events := events ++ [Event.send gt_path_status_req] }
    (by simpa using hN) rfl
  simp only [List.nil_append] at h
  simp only [gt_path_status, h]
  simp [gt_path_status_recv, status_req_type, hlast.1, hlast.2, EAGAIN,
    print_loop state _ isatty status_req_name_empty, List.replicate_succ',
    List.append_assoc]

/-- A failed enumeration: after the continuation envelopes `envs`, an envelope
of another type, or of the right type with a result code that is neither 0 nor
`EAGAIN`, makes `gt_path_status` return -1 with `errno` set, nothing printed. -/
theorem status_failed (MUD_PATH_MAX : Nat) (w : World) (state : mud_state)
    (interface_name : List Nat) (envs : List ctl_msg) (bad : ctl_msg)
    (extra : List RecvResult)
    (hN : envs.length ≤ MUD_PATH_MAX)
    (hcont : ∀ e ∈ envs, e.type = ctl_type.CTL_PATH_STATUS ∧ e.ret = EAGAIN)
    (hsend : w.send_err = none)
    (hin : w.inbox = envs.map RecvResult.msg ++ RecvResult.msg bad :: extra)
    (hbad : bad.type ≠ ctl_type.CTL_PATH_STATUS ∨ (bad.ret ≠ 0 ∧ bad.ret ≠ EAGAIN)) :
    gt_path_status MUD_PATH_MAX w state interface_name =
      Outcome.ret (-1)
        { w with
          inbox := extra,
          errno := (if bad.type ≠ ctl_type.CTL_PATH_STATUS then EBADMSG else bad.ret),
          events := (w.events ++ [Event.send gt_path_status_req] ++
            List.replicate (envs.length + 1) Event.recv) } := by
  obtain ⟨inbox, send_err, connect_ret, isatty, errno, events⟩ := w
  simp only at hsend hin
  subst hsend hin
  have h := recv_continuations MUD_PATH_MAX gt_path_status_req envs hcont
    (RecvResult.msg bad :: extra) []
    { inbox := envs.map RecvResult.msg ++ RecvResult.msg bad :: extra, send_err := none,
      connect_ret := connect_ret, isatty := isatty, errno := errno,
      events := events ++ [Event.send gt_path_status_req] }
    (by simpa using hN) rfl
  simp only [List.nil_append] at h
  simp only [gt_path_status, h]
  by_cases ht : bad.type = ctl_type.CTL_PATH_STATUS
  · have hr : bad.ret ≠ 0 ∧ bad.ret ≠ EAGAIN := by
      rcases hbad with hb | hb
      · exact absurd ht hb
      · exact hb
    simp [gt_path_status_recv, status_req_type, ht, hr.1, hr.2, List.replicate_succ',
      List.append_assoc]
  · simp [gt_path_status_recv, status_req_type, ht, List.replicate_succ', List.append_assoc]

/-! ## Claims about gt_path_status -/

/-- C1: for every stream of N <= MUD_PATH_MAX envelopes of type PATH_STATUS with
result code EAGAIN followed by one envelope of type PATH_STATUS with result
code 0, `gt_path_status` called with the wildcard state (and any interface
name, in particular none) performs exactly one send and N+1 receives, returns
0, and hands to the formatter exactly the N records of the continuation
envelopes, in arrival order. That the stream comes in is: the send succeeds and
the successive receives deliver these envelopes. -/
theorem gt_path_status_returns_all_records (MUD_PATH_MAX : Nat) (w : World)
    (interface_name : List Nat) (envs : List ctl_msg) (last : ctl_msg)
    (extra : List RecvResult)
    (hN : envs.length ≤ MUD_PATH_MAX)
    (hcont : ∀ e ∈ envs, e.type = ctl_type.CTL_PATH_STATUS ∧ e.ret = EAGAIN)
    (hlast : last.type = ctl_type.CTL_PATH_STATUS ∧ last.ret = 0)
    (hsend : w.send_err = none)
    (hin : w.inbox = envs.map RecvResult.msg ++ RecvResult.msg last :: extra) :
    ∃ w' : World,
      gt_path_status MUD_PATH_MAX w mud_state.MUD_EMPTY interface_name = Outcome.ret 0 w' ∧
      sends w'.events = sends w.events + 1 ∧
      recvs w'.events = recvs w.events + (envs.length + 1) ∧
      printed w'.events = printed w.events ++ envs.map (fun e => e.path_status) ∧
      w'.inbox = extra := by
  refine ⟨_, status_drained MUD_PATH_MAX w .MUD_EMPTY interface_name envs last extra
    hN hcont hlast hsend hin, ?_, ?_, ?_, rfl⟩
  · simp only [sends_append, sends_replicate_recv, sends_print_status, sends_send]
  · simp only [recvs_append, recvs_replicate_recv, recvs_print_status, recvs_send]
    omega
  · rw [filter_wildcard]
    simp only [printed_append, printed_replicate_recv, printed_print_status, printed_send,
      List.append_nil]

/-- An instance of C1: a daemon that sends the records of `eth0` and `eth1`
and then the terminal envelope, with an array of two records. -/
theorem gt_path_status_returns_all_records_witness :
    ∃ w' : World,
      gt_path_status 2 daemon_two mud_state.MUD_EMPTY [] = Outcome.ret 0 w' ∧
      sends w'.events = 0 + 1 ∧
      recvs w'.events = 0 + (2 + 1) ∧
      printed w'.events = [] ++ [rec_eth0, rec_eth1] ∧
      w'.inbox = [] :=
  gt_path_status_returns_all_records 2 daemon_two []
    [continuation rec_eth0, continuation rec_eth1] terminal []
    (by decide) (by decide) (by decide) rfl rfl

/-- C2: enumeration is all-or-nothing. For every K <= MUD_PATH_MAX, when K
well-typed continuation envelopes are followed by an envelope whose type is not
the request type, or whose result code is neither 0 nor EAGAIN,
`gt_path_status` returns -1 after K+1 receives and hands no record to the
formatter; `errno` is EBADMSG for the type mismatch, whatever the result code
of that envelope, and the result code of the envelope for the server error.
The send succeeds and the successive receives deliver these envelopes. -/
theorem gt_path_status_all_or_nothing (MUD_PATH_MAX : Nat) (w : World) (state : mud_state)
    (interface_name : List Nat) (envs : List ctl_msg) (bad : ctl_msg)
    (extra : List RecvResult)
    (hK : envs.length ≤ MUD_PATH_MAX)
    (hcont : ∀ e ∈ envs, e.type = ctl_type.CTL_PATH_STATUS ∧ e.ret = EAGAIN)
    (hsend : w.send_err = none)
    (hin : w.inbox = envs.map RecvResult.msg ++ RecvResult.msg bad :: extra)
    (hbad : bad.type ≠ ctl_type.CTL_PATH_STATUS ∨ (bad.ret ≠ 0 ∧ bad.ret ≠ EAGAIN)) :
    ∃ w' : World,
      gt_path_status MUD_PATH_MAX w state interface_name = Outcome.ret (-1) w' ∧
      printed w'.events = printed w.events ∧
      recvs w'.events = recvs w.events + (envs.length + 1) ∧
      (bad.type ≠ ctl_type.CTL_PATH_STATUS → w'.errno = EBADMSG) ∧
      (bad.type = ctl_type.CTL_PATH_STATUS → w'.errno = bad.ret) := by
  refine ⟨_, status_failed MUD_PATH_MAX w state interface_name envs bad extra
    hK hcont hsend hin hbad, ?_, ?_, ?_, ?_⟩
  · simp only [printed_append, printed_replicate_recv, printed_send, List.append_nil]
  · simp only [recvs_append, recvs_replicate_recv, recvs_send]
    omega
  · intro h
    simp [h]
  · intro h
    simp [h]

/-- An instance of C2: after the record of `eth0`, an envelope of type
`CTL_STATE` (first part) or a `CTL_PATH_STATUS` envelope with result code 5
(second part). -/
theorem gt_path_status_all_or_nothing_witness :
    (∃ w' : World,
      gt_path_status 2 daemon_mismatch mud_state.MUD_EMPTY [] = Outcome.ret (-1) w' ∧
      printed w'.events = [] ∧ recvs w'.events = 0 + (1 + 1) ∧
      (bad_type.type ≠ ctl_type.CTL_PATH_STATUS → w'.errno = EBADMSG) ∧
      (bad_type.type = ctl_type.CTL_PATH_STATUS → w'.errno = bad_type.ret)) ∧
    (∃ w' : World,
      gt_path_status 2 daemon_error mud_state.MUD_EMPTY [] = Outcome.ret (-1) w' ∧
      printed w'.events = [] ∧ recvs w'.events = 0 + (1 + 1) ∧
      (bad_code.type ≠ ctl_type.CTL_PATH_STATUS → w'.errno = EBADMSG) ∧
      (bad_code.type = ctl_type.CTL_PATH_STATUS → w'.errno = bad_code.ret)) :=
  ⟨gt_path_status_all_or_nothing 2 daemon_mismatch .MUD_EMPTY [] [continuation rec_eth0]
      bad_type [] (by decide) (by decide) rfl rfl (Or.inl (by decide)),
   gt_path_status_all_or_nothing 2 daemon_error .MUD_EMPTY [] [continuation rec_eth0]
      bad_code [] (by decide) (by decide) rfl rfl (Or.inr (by decide))⟩

/-- C4: for every drained sequence of records and every requested state,
`gt_path_status` (with any interface name, in particular none) hands to the
formatter exactly the records whose state equals the requested state, in
arrival order, and the whole sequence when the state is the wildcard
MUD_EMPTY. A drained sequence is: the send succeeds, at most MUD_PATH_MAX
continuation envelopes arrive and then a success-terminal one. -/
theorem gt_path_status_state_filter (MUD_PATH_MAX : Nat) (w : World) (state : mud_state)
    (interface_name : List Nat) (envs : List ctl_msg) (last : ctl_msg)
    (extra : List RecvResult)
    (hN : envs.length ≤ MUD_PATH_MAX)
    (hcont : ∀ e ∈ envs, e.type = ctl_type.CTL_PATH_STATUS ∧ e.ret = EAGAIN)
    (hlast : last.type = ctl_type.CTL_PATH_STATUS ∧ last.ret = 0)
    (hsend : w.send_err = none)
    (hin : w.inbox = envs.map RecvResult.msg ++ RecvResult.msg last :: extra) :
    ∃ w' : World,
      gt_path_status MUD_PATH_MAX w state interface_name = Outcome.ret 0 w' ∧
      printed w'.events = printed w.events ++
        (if state = mud_state.MUD_EMPTY then envs.map (fun e => e.path_status)
         else List.filter (fun p => decide (p.state = state))
                (envs.map (fun e => e.path_status))) := by
  refine ⟨_, status_drained MUD_PATH_MAX w state interface_name envs last extra
    hN hcont hlast hsend hin, ?_⟩
  simp only [printed_append, printed_replicate_recv, printed_print_status, printed_send,
    List.append_nil]
  by_cases hs : state = mud_state.MUD_EMPTY
  · subst hs
    rw [filter_wildcard]
    simp
  · simp [hs]

/-- The example of C4: the daemon sends `eth0` (UP) then `eth1` (DOWN); a query
with state UP yields the record of `eth0` only, a query without filter yields
both records in the order sent. -/
theorem gt_path_status_state_filter_witness :
    (∃ w' : World,
      gt_path_status 2 daemon_two mud_state.MUD_UP [] = Outcome.ret 0 w' ∧
      printed w'.events = [] ++ [rec_eth0]) ∧
    (∃ w' : World,
      gt_path_status 2 daemon_two mud_state.MUD_EMPTY [] = Outcome.ret 0 w' ∧
      printed w'.events = [] ++ [rec_eth0, rec_eth1]) :=
  ⟨gt_path_status_state_filter 2 daemon_two .MUD_UP []
      [continuation rec_eth0, continuation rec_eth1] terminal []
      (by decide) (by decide) (by decide) rfl rfl,
   gt_path_status_state_filter 2 daemon_two .MUD_EMPTY []
      [continuation rec_eth0, continuation rec_eth1] terminal []
      (by decide) (by decide) (by decide) rfl rfl⟩

/-- One continuation envelope more than the array holds: the loop stores the
first `MUD_PATH_MAX` records and then writes `path[MUD_PATH_MAX]`. -/
theorem status_overflow (MUD_PATH_MAX : Nat) (w : World) (state : mud_state)
    (interface_name : List Nat) (envs : List ctl_msg) (over : ctl_msg)
    (extra : List RecvResult)
    (hN : envs.length = MUD_PATH_MAX)
    (hcont : ∀ e ∈ envs, e.type = ctl_type.CTL_PATH_STATUS ∧ e.ret = EAGAIN)
    (hover : over.type = ctl_type.CTL_PATH_STATUS ∧ over.ret = EAGAIN)
    (hsend : w.send_err = none)
    (hin : w.inbox = envs.map RecvResult.msg ++ RecvResult.msg over :: extra) :
    gt_path_status MUD_PATH_MAX w state interface_name =
      Outcome.undefined MUD_PATH_MAX
        { w with
          inbox := extra,
          events := (w.events ++ [Event.send gt_path_status_req] ++
            List.replicate (MUD_PATH_MAX + 1) Event.recv) } := by
  obtain ⟨inbox, send_err, connect_ret, isatty, errno, events⟩ := w
  simp only at hsend hin
  subst hsend hin
  have h := recv_continuations MUD_PATH_MAX gt_path_status_req envs hcont
    (RecvResult.msg over :: extra) []
    { inbox := envs.map RecvResult.msg ++ RecvResult.msg over :: extra, send_err := none,
      connect_ret := connect_ret, isatty := isatty, errno := errno,
      events := events ++ [Event.send gt_path_status_req] }
    (by simp [hN]) rfl
  simp only [List.nil_append] at h
  simp only [gt_path_status, h]
  simp [gt_path_status_recv, status_req_type, hover.1, hover.2, hN, List.replicate_succ',
    List.append_assoc]

/-- C10 (evaluation of the code): whatever the capacity `MUD_PATH_MAX`, a
daemon that sends `MUD_PATH_MAX + 1` well-typed continuation envelopes before
the terminal one makes the receive loop write `path[MUD_PATH_MAX]`, outside the
array, at its receive number `MUD_PATH_MAX + 1`: the loop has no bound on the
index and does not stop there by itself. -/
theorem gt_path_status_writes_past_the_array (MUD_PATH_MAX : Nat) :
    gt_path_status MUD_PATH_MAX
        { inbox := List.replicate (MUD_PATH_MAX + 1) (RecvResult.msg (continuation rec_eth0)) ++
            [RecvResult.msg terminal] }
        mud_state.MUD_EMPTY [] =
      Outcome.undefined MUD_PATH_MAX
        { inbox := [RecvResult.msg terminal],
          events := ([Event.send gt_path_status_req] ++
            List.replicate (MUD_PATH_MAX + 1) Event.recv) } := by
  have h := status_overflow MUD_PATH_MAX
    { inbox := List.replicate (MUD_PATH_MAX + 1) (RecvResult.msg (continuation rec_eth0)) ++
        [RecvResult.msg terminal] }
    mud_state.MUD_EMPTY [] (List.replicate MUD_PATH_MAX (continuation rec_eth0))
    (continuation rec_eth0) [RecvResult.msg terminal] (by simp)
    (by
      intro e he
      rw [List.eq_of_mem_replicate he]
      exact ⟨rfl, rfl⟩)
    ⟨rfl, rfl⟩ rfl
    (by simp [List.replicate_succ', List.append_assoc])
  simpa using h

/-! ## Byte order -/

theorem le_bytes_length (n x : Nat) : (le_bytes n x).length = n := by
  induction n generalizing x with
  | zero => rfl
  | succ n ih => simp [le_bytes, ih]

theorem le_bytes_lt (n x : Nat) : ∀ b ∈ le_bytes n x, b < 256 := by
  induction n generalizing x with
  | zero => intro b hb; simp [le_bytes] at hb
  | succ n ih =>
    intro b hb
    simp only [le_bytes, List.mem_cons] at hb
    rcases hb with hb | hb
    · subst hb; exact Nat.mod_lt _ (by decide)
    · exact ih _ b hb

/-- Bytes that are decoded and encoded again are unchanged. -/
theorem le_bytes_decode (bs : List Nat) (hb : ∀ b ∈ bs, b < 256) :
    le_bytes bs.length (le_decode bs) = bs := by
  induction bs with
  | nil => rfl
  | cons b bs ih =>
    have h1 : b < 256 := hb b (List.mem_cons_self _ _)
    have h2 : ∀ c ∈ bs, c < 256 := fun c hc => hb c (List.mem_cons_of_mem _ hc)
    have e1 : (b + 256 * le_decode bs) % 256 = b := by omega
    have e2 : (b + 256 * le_decode bs) / 256 = le_decode bs := by omega
    simp only [List.length_cons, le_decode, le_bytes, e1, e2, ih h2]

/-- A number that is encoded on `n` bytes and decoded again is reduced modulo `256 ^ n`. -/
theorem le_decode_bytes (n x : Nat) : le_decode (le_bytes n x) = x % 256 ^ n := by
  induction n generalizing x with
  | zero => simp [le_bytes, le_decode, Nat.mod_one]
  | succ n ih => rw [le_bytes, le_decode, ih, Nat.pow_succ', Nat.mod_mul]

/-- Big-endian decoding is little-endian decoding of the reversed bytes. -/
theorem be_decode_reverse (bs : List Nat) : be_decode bs.reverse = le_decode bs := by
  induction bs with
  | nil => rfl
  | cons b bs ih =>
    have h : be_decode (bs.reverse ++ [b]) = be_decode bs.reverse * 256 + b := by
      simp [be_decode, List.foldl_append]
    rw [List.reverse_cons, h, ih, le_decode]
    omega

/-- The big-endian encoding is the eight low-order bytes, most significant first. -/
theorem be64_encode_eq (x : Nat) : be64_encode x = (le_bytes 8 x).reverse := by
  simp [be64_encode, le_bytes, Nat.div_div_eq_div_mul]

/-- In the memory of either host, `htobe64 (x)` is the big-endian encoding of `x`. -/
theorem store64_htobe64 (little_endian : Bool) (x : Nat) (hx : x < 2 ^ 64) :
    store64 little_endian (htobe64 little_endian x) = be64_encode x := by
  rw [be64_encode_eq]
  cases little_endian
  · simp only [store64, htobe64, Bool.false_eq_true, if_false, Nat.mod_eq_of_lt hx]
  · simp only [store64, htobe64, if_true, Nat.mod_eq_of_lt hx, bswap64]
    have h := le_bytes_decode (le_bytes 8 x).reverse
      (fun b hb => le_bytes_lt 8 x b (List.mem_reverse.mp hb))
    simpa [le_bytes_length] using h

/-- Decoding the big-endian encoding gives the number back. -/
theorem be_decode_encode (x : Nat) (hx : x < 2 ^ 64) : be_decode (be64_encode x) = x := by
  rw [be64_encode_eq, be_decode_reverse, le_decode_bytes]
  exact Nat.mod_eq_of_lt (by simpa using hx)

/-! ## The request built by gt_path -/

theorem req_state_fields (a : Args) (req : ctl_msg) :
    (gt_path_req_state a req).type = req.type ∧
    (gt_path_req_state a req).path.interface_name = req.path.interface_name ∧
    (gt_path_req_state a req).path.loss_limit = req.path.loss_limit ∧
    (gt_path_req_state a req).path.rtt_limit = req.path.rtt_limit ∧
    (gt_path_req_state a req).path.state =
      (if a.up then mud_state.MUD_UP else if a.backup then mud_state.MUD_BACKUP
       else if a.down then mud_state.MUD_DOWN else req.path.state) := by
  unfold gt_path_req_state
  split_ifs <;> simp

theorem req_preferred_fields (a : Args) (req : ctl_msg) :
    (gt_path_req_preferred a req).type = req.type ∧
    (gt_path_req_preferred a req).path.interface_name = req.path.interface_name ∧
    (gt_path_req_preferred a req).path.loss_limit = req.path.loss_limit ∧
    (gt_path_req_preferred a req).path.rtt_limit = req.path.rtt_limit ∧
    (gt_path_req_preferred a req).path.state = req.path.state := by
  unfold gt_path_req_preferred
  split_ifs <;> simp

theorem req_loss_limit_fields (a : Args) (req : ctl_msg) :
    (gt_path_req_loss_limit a req).type = req.type ∧
    (gt_path_req_loss_limit a req).path.interface_name = req.path.interface_name ∧
    (gt_path_req_loss_limit a req).path.loss_limit =
      (if a.loss_limit ≠ 0 then a.loss_limit * 255 % 2 ^ 32 / 100 else req.path.loss_limit) ∧
    (gt_path_req_loss_limit a req).path.rtt_limit = req.path.rtt_limit ∧
    (gt_path_req_loss_limit a req).path.state = req.path.state := by
  unfold gt_path_req_loss_limit
  split_ifs <;> simp

theorem req_rtt_limit_fields (little_endian : Bool) (a : Args) (req : ctl_msg) :
    (gt_path_req_rtt_limit little_endian a req).type = req.type ∧
    (gt_path_req_rtt_limit little_endian a req).path.interface_name =
      req.path.interface_name ∧
    (gt_path_req_rtt_limit little_endian a req).path.loss_limit = req.path.loss_limit ∧
    (gt_path_req_rtt_limit little_endian a req).path.rtt_limit =
      (if a.rtt_limit ≠ 0 then htobe64 little_endian a.rtt_limit else req.path.rtt_limit) ∧
    (gt_path_req_rtt_limit little_endian a req).path.state = req.path.state := by
  unfold gt_path_req_rtt_limit
  split_ifs <;> simp

theorem req_fixed_rate_fields (a : Args) (req : ctl_msg) :
    (gt_path_req_fixed_rate a req).type = req.type ∧
    (gt_path_req_fixed_rate a req).path.interface_name = req.path.interface_name ∧
    (gt_path_req_fixed_rate a req).path.loss_limit = req.path.loss_limit ∧
    (gt_path_req_fixed_rate a req).path.rtt_limit = req.path.rtt_limit ∧
    (gt_path_req_fixed_rate a req).path.state = req.path.state := by
  unfold gt_path_req_fixed_rate
  split_ifs <;> simp

/-- The fields of the request after lines 206-233, from those before. -/
theorem req_fill_fields (little_endian : Bool) (a : Args) (req : ctl_msg) :
    (gt_path_req_fill little_endian a req).type = req.type ∧
    (gt_path_req_fill little_endian a req).path.interface_name = req.path.interface_name ∧
    (gt_path_req_fill little_endian a req).path.loss_limit =
      (if a.loss_limit ≠ 0 then a.loss_limit * 255 % 2 ^ 32 / 100 else req.path.loss_limit) ∧
    (gt_path_req_fill little_endian a req).path.rtt_limit =
      (if a.rtt_limit ≠ 0 then htobe64 little_endian a.rtt_limit else req.path.rtt_limit) ∧
    (gt_path_req_fill little_endian a req).path.state =
      (if a.up then mud_state.MUD_UP else if a.backup then mud_state.MUD_BACKUP
       else if a.down then mud_state.MUD_DOWN else req.path.state) := by
  obtain ⟨f1, f2, f3, f4, f5⟩ := req_fixed_rate_fields a
    (gt_path_req_rtt_limit little_endian a (gt_path_req_loss_limit a
      (gt_path_req_preferred a (gt_path_req_state a req))))
  obtain ⟨r1, r2, r3, r4, r5⟩ := req_rtt_limit_fields little_endian a
    (gt_path_req_loss_limit a (gt_path_req_preferred a (gt_path_req_state a req)))
  obtain ⟨l1, l2, l3, l4, l5⟩ := req_loss_limit_fields a
    (gt_path_req_preferred a (gt_path_req_state a req))
  obtain ⟨p1, p2, p3, p4, p5⟩ := req_preferred_fields a (gt_path_req_state a req)
  obtain ⟨s1, s2, s3, s4, s5⟩ := req_state_fields a req
  unfold gt_path_req_fill
  refine ⟨?_, ?_, ?_, ?_, ?_⟩
  · rw [f1, r1, l1, p1, s1]
  · rw [f2, r2, l2, p2, s2]
  · rw [f3, r3, l3, p3, s3]
  · rw [f4, r4, l4, p4, s4]
  · rw [f5, r5, l5, p5, s5]

/-- Every request that passes the validation is the initial request, with the
interface name copied in when there is one, filled from the options. -/
theorem gt_path_req_ok (little_endian : Bool) (a : Args) (req : ctl_msg)
    (h : gt_path_req little_endian a = Except.ok req) :
    ∃ r0 : ctl_msg, req = gt_path_req_fill little_endian a r0 ∧
      r0.type = ctl_type.CTL_STATE ∧ r0.path.loss_limit = 0 ∧ r0.path.rtt_limit = 0 ∧
      r0.path.state = mud_state.MUD_EMPTY := by
  unfold gt_path_req at h
  cases hn : a.ifname with
  | none =>
    simp only [hn] at h
    split_ifs at h
    simp only [Except.ok.injEq] at h
    exact ⟨gt_path_req_init a, h.symm, rfl, rfl, rfl, rfl⟩
  | some name =>
    simp only [hn, reduceCtorEq, and_false, if_false] at h
    split_ifs at h
    simp only [Except.ok.injEq] at h
    exact ⟨gt_path_req_ifname name (gt_path_req_init a), h.symm, rfl, rfl, rfl, rfl⟩

/-- With an interface name of at most `IFNAMSIZ` bytes the validation passes. -/
theorem gt_path_req_named (little_endian : Bool) (a : Args) (name : List Nat)
    (hname : a.ifname = some name) (hlen : name.length ≤ IFNAMSIZ) :
    gt_path_req little_endian a =
      Except.ok (gt_path_req_fill little_endian a
        (gt_path_req_ifname name (gt_path_req_init a))) := by
  have hle : ¬ name.length > IFNAMSIZ := Nat.not_lt.mpr hlen
  simp only [gt_path_req, hname, hle, if_false, reduceCtorEq, and_false]

/-- An interface name longer than `IFNAMSIZ` is refused. -/
theorem gt_path_req_too_long (little_endian : Bool) (a : Args) (name : List Nat)
    (hname : a.ifname = some name) (hlen : IFNAMSIZ < name.length) :
    gt_path_req little_endian a = Except.error LogMsg.interface_name_too_long := by
  simp [gt_path_req, hname, hlen]

/-- A rate, beat, loss limit or RTT limit without interface name is refused. -/
theorem gt_path_req_no_ifname (little_endian : Bool) (a : Args)
    (hset : gt_path_set a = true) (hname : a.ifname = none) :
    gt_path_req little_endian a = Except.error LogMsg.please_specify_an_interface := by
  simp [gt_path_req, hname, hset]

/-! ## Claims about the unit translation -/

/-- C5: for every loss limit of P percent, P in [0,100], the `loss_limit` field
of the request that `gt_path` builds is floor (P * 255 / 100); the product does
not overflow `unsigned int` and the field is at most 255; 0 gives 0, 50 gives
127 and 100 gives 255; and the translation is monotone: for a second request
built from Q percent, P <= Q <= 100, the field is at least as large. -/
theorem gt_path_loss_limit_translation (little_endian : Bool) (a b : Args)
    (ra rb : ctl_msg)
    (hP : a.loss_limit ≤ 100) (hQ : b.loss_limit ≤ 100)
    (ha : gt_path_req little_endian a = Except.ok ra)
    (hb : gt_path_req little_endian b = Except.ok rb) :
    ra.path.loss_limit = a.loss_limit * 255 / 100 ∧
    a.loss_limit * 255 < 2 ^ 32 ∧
    ra.path.loss_limit ≤ 255 ∧
    (a.loss_limit = 0 → ra.path.loss_limit = 0) ∧
    (a.loss_limit = 50 → ra.path.loss_limit = 127) ∧
    (a.loss_limit = 100 → ra.path.loss_limit = 255) ∧
    (a.loss_limit ≤ b.loss_limit → ra.path.loss_limit ≤ rb.path.loss_limit) := by
  have key : ∀ (c : Args) (rc : ctl_msg), c.loss_limit ≤ 100 →
      gt_path_req little_endian c = Except.ok rc →
      rc.path.loss_limit = c.loss_limit * 255 / 100 := by
    intro c rc hc hrc
    obtain ⟨r0, hr, _, h0, _, _⟩ := gt_path_req_ok little_endian c rc hrc
    obtain ⟨_, _, hl, _, _⟩ := req_fill_fields little_endian c r0
    rw [hr, hl, h0]
    have hlt : c.loss_limit * 255 % 2 ^ 32 = c.loss_limit * 255 :=
      Nat.mod_eq_of_lt (by norm_num; omega)
    by_cases hz : c.loss_limit = 0
    · simp [hz]
    · rw [if_pos hz, hlt]
  have ea := key a ra hP ha
  have eb := key b rb hQ hb
  rw [ea, eb]
  refine ⟨rfl, ?_, ?_, ?_, ?_, ?_, ?_⟩
  · norm_num; omega
  · omega
  · intro h; omega
  · intro h; omega
  · intro h; omega
  · intro h; omega

/-- An instance of C5: `path eth0 losslimit 50` and `path eth0 losslimit 100`. -/
theorem gt_path_loss_limit_translation_witness :
    (gt_path_req_fill true args_loss_50
        (gt_path_req_ifname eth0 (gt_path_req_init args_loss_50))).path.loss_limit = 127 ∧
    (gt_path_req_fill true args_loss_100
        (gt_path_req_ifname eth0 (gt_path_req_init args_loss_100))).path.loss_limit = 255 :=
  have h := gt_path_loss_limit_translation true args_loss_50 args_loss_100
    (gt_path_req_fill true args_loss_50
      (gt_path_req_ifname eth0 (gt_path_req_init args_loss_50)))
    (gt_path_req_fill true args_loss_100
      (gt_path_req_ifname eth0 (gt_path_req_init args_loss_100)))
    (by decide) (by decide) rfl rfl
  have h' := gt_path_loss_limit_translation true args_loss_100 args_loss_100
    (gt_path_req_fill true args_loss_100
      (gt_path_req_ifname eth0 (gt_path_req_init args_loss_100)))
    (gt_path_req_fill true args_loss_100
      (gt_path_req_ifname eth0 (gt_path_req_init args_loss_100)))
    (by decide) (by decide) rfl rfl
  ⟨h.2.2.2.2.1 rfl, h'.2.2.2.2.2.1 rfl⟩

/-- C6 as stated fails: for `path eth0 rttlimit 1`, on either host, the
`rtt_limit` field of the request is not the big-endian encoding of 1 * 1000,
and decoding it as big-endian and dividing by 1000 gives 0, not 1. -/
theorem gt_path_rtt_limit_is_not_scaled :
    (∃ req : ctl_msg, gt_path_req true args_rtt_1 = Except.ok req ∧
      store64 true req.path.rtt_limit ≠ be64_encode (args_rtt_1.rtt_limit * 1000) ∧
      be_decode (store64 true req.path.rtt_limit) / 1000 ≠ args_rtt_1.rtt_limit) ∧
    (∃ req : ctl_msg, gt_path_req false args_rtt_1 = Except.ok req ∧
      store64 false req.path.rtt_limit ≠ be64_encode (args_rtt_1.rtt_limit * 1000) ∧
      be_decode (store64 false req.path.rtt_limit) / 1000 ≠ args_rtt_1.rtt_limit) :=
  ⟨⟨_, rfl, by decide, by decide⟩, ⟨_, rfl, by decide, by decide⟩⟩

/-- C6 amended: for every RTT limit of M milliseconds, M > 0 an `unsigned int`,
the `rtt_limit` field of the request that `gt_path` builds holds, in the memory
of either host, the 64-bit big-endian encoding of M itself (milliseconds, not
multiplied by 1000), so that decoding the field as big-endian recovers M. -/
theorem gt_path_rtt_limit_big_endian (little_endian : Bool) (a : Args) (req : ctl_msg)
    (hM : 0 < a.rtt_limit) (hu : a.rtt_limit < 2 ^ 32)
    (hreq : gt_path_req little_endian a = Except.ok req) :
    store64 little_endian req.path.rtt_limit = be64_encode a.rtt_limit ∧
    be_decode (store64 little_endian req.path.rtt_limit) = a.rtt_limit := by
  obtain ⟨r0, hr, _, _, _, _⟩ := gt_path_req_ok little_endian a req hreq
  obtain ⟨_, _, _, hl, _⟩ := req_fill_fields little_endian a r0
  have hne : a.rtt_limit ≠ 0 := by omega
  have h64 : a.rtt_limit < 2 ^ 64 := by
    have : (2 : Nat) ^ 32 < 2 ^ 64 := by norm_num
    omega
  rw [hr, hl, if_pos hne, store64_htobe64 little_endian a.rtt_limit h64]
  exact ⟨rfl, be_decode_encode a.rtt_limit h64⟩

/-- An instance of the amended C6: `path eth0 rttlimit 250` on a little-endian host. -/
theorem gt_path_rtt_limit_big_endian_witness :
    store64 true (gt_path_req_fill true args_rtt_250
        (gt_path_req_ifname eth0 (gt_path_req_init args_rtt_250))).path.rtt_limit =
      [0, 0, 0, 0, 0, 0, 0, 250] ∧
    be_decode (store64 true (gt_path_req_fill true args_rtt_250
        (gt_path_req_ifname eth0 (gt_path_req_init args_rtt_250))).path.rtt_limit) = 250 :=
  gt_path_rtt_limit_big_endian true args_rtt_250
    (gt_path_req_fill true args_rtt_250
      (gt_path_req_ifname eth0 (gt_path_req_init args_rtt_250)))
    (by decide) (by decide) rfl

/-! ## Sends of a whole run -/

theorem sends_recv : sends [Event.recv] = 0 := rfl

theorem sends_pair (m : ctl_msg) : sends [Event.send m, Event.recv] = 1 := rfl

/-- The receive loop sends nothing, whatever arrives. -/
theorem recv_loop_sends (MUD_PATH_MAX : Nat) (req : ctl_msg) :
    ∀ (inbox : List RecvResult) (path : List mud_path) (w : World),
      sends (gt_path_status_recv MUD_PATH_MAX req inbox path w).world.events =
        sends w.events := by
  intro inbox
  induction inbox with
  | nil => intro path w; rfl
  | cons r rest ih =>
    intro path w
    cases r with
    | error e => simp [gt_path_status_recv, Outcome.world, sends_append, sends_recv]
    | msg res =>
      simp only [gt_path_status_recv]
      split_ifs
      · simp [Outcome.world, sends_append, sends_recv]
      · rw [ih]
        simp [sends_append, sends_recv]
      · simp [Outcome.world, sends_append, sends_recv]
      · simp [Outcome.world, sends_append, sends_recv]
      · simp [Outcome.world, sends_append, sends_recv]

/-- The output loop sends nothing. -/
theorem print_loop_sends (state : mud_state) (req : ctl_msg) (term : Bool) :
    ∀ (path : List mud_path) (w : World),
      sends (gt_path_status_print state req term path w).events = sends w.events := by
  intro path
  induction path with
  | nil => intro w; rfl
  | cons p ps ih =>
    intro w
    simp only [gt_path_status_print]
    split_ifs
    · rw [ih]
      simp [sends_append, sends]
    · rw [ih]

/-- Every call of `gt_path_status` performs exactly one send. -/
theorem gt_path_status_sends (MUD_PATH_MAX : Nat) (w : World) (state : mud_state)
    (interface_name : List Nat) :
    sends (gt_path_status MUD_PATH_MAX w state interface_name).world.events =
      sends w.events + 1 := by
  obtain ⟨inbox, send_err, connect_ret, isatty, errno, events⟩ := w
  unfold gt_path_status
  cases send_err with
  | some e => simp [Outcome.world, sends_append, sends_send]
  | none =>
    have hloop := recv_loop_sends MUD_PATH_MAX gt_path_status_req inbox []
      { inbox := inbox, send_err := none, connect_ret := connect_ret, isatty := isatty,
        errno := errno, events := events ++ [Event.send gt_path_status_req] }
    simp only [sends_append, sends_send] at hloop
    simp only
    cases hr : gt_path_status_recv MUD_PATH_MAX gt_path_status_req inbox []
      { inbox := inbox, send_err := none, connect_ret := connect_ret, isatty := isatty,
        errno := errno, events := events ++ [Event.send gt_path_status_req] } with
    | blocked w2 => rw [hr] at hloop; simpa [Outcome.world] using hloop
    | undefined i w2 => rw [hr] at hloop; simpa [Outcome.world] using hloop
    | ret v w2 =>
      rw [hr] at hloop
      cases v with
      | none => simpa [Outcome.world] using hloop
      | some path =>
        simp only [Outcome.world] at hloop ⊢
        rw [print_loop_sends, hloop]

/-- Every call of `ctl_reply` performs exactly one send. -/
theorem ctl_reply_sends (w : World) (req : ctl_msg) :
    sends (ctl_reply w req).world.events = sends w.events + 1 := by
  unfold ctl_reply
  cases hs : w.send_err with
  | some e => simp [Outcome.world, sends_append, sends_send]
  | none =>
    cases hi : w.inbox with
    | nil => simp [Outcome.world, sends_append, sends_send]
    | cons r rest =>
      cases r with
      | error e => simp [Outcome.world, sends_append, sends_pair]
      | msg res =>
        simp only
        split_ifs <;> simp [Outcome.world, sends_append, sends_pair]

/-- The end of `gt_path` sends nothing. -/
theorem gt_path_finish_sends (fd : Int) (r : Outcome Int) :
    sends (gt_path_finish fd r).world.events = sends r.world.events := by
  cases r with
  | blocked w => rfl
  | undefined i w => rfl
  | ret v w =>
    simp only [gt_path_finish, Outcome.world]
    split_ifs <;> simp [sends_append, sends]

/-- When the options are parsed, the channel is open and the validation passes,
`gt_path` performs exactly one send. -/
theorem gt_path_accepted_sends (MUD_PATH_MAX : Nat) (little_endian : Bool) (w : World)
    (a : Args) (req : ctl_msg) (hargz : a.argz_ret = 0) (hfd : 0 ≤ w.connect_ret)
    (hreq : gt_path_req little_endian a = Except.ok req) :
    sends (gt_path MUD_PATH_MAX little_endian w a).world.events = sends w.events + 1 := by
  have hfd' : ¬ w.connect_ret < 0 := not_lt.mpr hfd
  simp only [gt_path, hargz, ne_eq, not_true_eq_false, if_false, hfd', hreq]
  split_ifs
  · rw [gt_path_finish_sends, gt_path_status_sends]
    simp [sends_append, sends]
  · rw [gt_path_finish_sends, ctl_reply_sends]
    simp [sends_append, sends]

/-- When the validation fails, `gt_path` returns 1 without send or receive. -/
theorem gt_path_refused (MUD_PATH_MAX : Nat) (little_endian : Bool) (w : World)
    (a : Args) (m : LogMsg) (hreq : gt_path_req little_endian a = Except.error m) :
    ∃ w' : World,
      gt_path MUD_PATH_MAX little_endian w a = Outcome.ret 1 w' ∧
      sends w'.events = sends w.events ∧
      recvs w'.events = recvs w.events ∧
      w'.inbox = w.inbox := by
  unfold gt_path
  by_cases hargz : a.argz_ret ≠ 0
  · exact ⟨w, by simp [hargz], rfl, rfl, rfl⟩
  · by_cases hfd : w.connect_ret < 0
    · simp only [hargz, hfd, if_false, if_true]
      refine ⟨_, rfl, ?_, ?_, ?_⟩
      · split_ifs <;> simp [sends_append, sends]
      · split_ifs <;> simp [recvs_append, recvs]
      · simp
    · simp only [hargz, hfd, if_false, hreq]
      refine ⟨_, rfl, ?_, ?_, ?_⟩
      · simp [sends_append, sends]
      · simp [recvs_append, recvs]
      · simp

/-! ## C strings -/

/-- The string held by an array that is NUL-padded after bytes without NUL. -/
theorem cstr_padded (l : List Nat) (k : Nat) (hl : ∀ b ∈ l, b ≠ 0) (hk : 0 < k) :
    cstr (l ++ List.replicate k 0) = l := by
  induction l with
  | nil =>
    obtain ⟨j, rfl⟩ : ∃ j, k = j + 1 := ⟨k - 1, by omega⟩
    simp [cstr, List.replicate_succ]
  | cons b bs ih =>
    have hb : b ≠ 0 := hl b (List.mem_cons_self _ _)
    have hbs : ∀ c ∈ bs, c ≠ 0 := fun c hc => hl c (List.mem_cons_of_mem _ hc)
    have := ih hbs
    simp only [cstr] at this ⊢
    simp [List.takeWhile_cons, hb, this]

/-- The name array of the request after `strncpy (..., ifname, 15)`. -/
theorem strncpy_ifname (name : List Nat) :
    strncpy (List.replicate IFNAMSIZ 0) name 15 =
      name.take 15 ++ List.replicate (IFNAMSIZ - (name.take 15).length) 0 := by
  have h : 15 - name.length + 1 = IFNAMSIZ - (name.take 15).length := by
    simp only [IFNAMSIZ, List.length_take]
    omega
  simp only [strncpy, List.drop_replicate, List.append_assoc,
    List.append_replicate_replicate]
  rw [show IFNAMSIZ - 15 = 1 from rfl, h]

/-! ## Claims about gt_path -/

/-- C7: for every invocation of `gt_path` in which at least one of rate, beat,
losslimit or rttlimit is set and no interface name is given, whatever the other
options and the environment are, the command returns 1 and performs no send
and no receive on the control channel. -/
theorem gt_path_mutation_needs_interface (MUD_PATH_MAX : Nat) (little_endian : Bool)
    (w : World) (a : Args)
    (hset : a.rate = true ∨ a.beat_set = true ∨ a.losslimit_set = true ∨
      a.rttlimit_set = true)
    (hname : a.ifname = none) :
    ∃ w' : World,
      gt_path MUD_PATH_MAX little_endian w a = Outcome.ret 1 w' ∧
      sends w'.events = sends w.events ∧
      recvs w'.events = recvs w.events ∧
      w'.inbox = w.inbox := by
  have hs : gt_path_set a = true := by
    simp only [gt_path_set, Bool.or_eq_true]
    tauto
  exact gt_path_refused MUD_PATH_MAX little_endian w a _
    (gt_path_req_no_ifname little_endian a hs hname)

/-- An instance of C7: `path beat 1000` in front of a daemon ready to answer. -/
theorem gt_path_mutation_needs_interface_witness :
    ∃ w' : World,
      gt_path 32 true daemon_two args_beat = Outcome.ret 1 w' ∧
      sends w'.events = 0 ∧
      recvs w'.events = 0 ∧
      w'.inbox = daemon_two.inbox :=
  gt_path_mutation_needs_interface 32 true daemon_two args_beat
    (Or.inr (Or.inl rfl)) rfl

/-- C8: for every interface name given to `gt_path`. If its length is at most
IFNAMSIZ (16) the name is accepted (the validation passes and, once the options
are parsed and the channel is open, the command goes on to its one send) and
the name array of the request holds the first 15 bytes of the name followed by
NUL bytes, at least one: a name of at most 15 bytes is copied unchanged, a name
of exactly 16 bytes is truncated. If its length is IFNAMSIZ + 1 or more the
command returns 1 without any send or receive. -/
theorem gt_path_ifname_length (MUD_PATH_MAX : Nat) (little_endian : Bool) (w : World)
    (a : Args) (name : List Nat) (hname : a.ifname = some name) :
    (name.length ≤ IFNAMSIZ →
      ∃ req : ctl_msg,
        gt_path_req little_endian a = Except.ok req ∧
        req.path.interface_name =
          name.take 15 ++ List.replicate (IFNAMSIZ - (name.take 15).length) 0 ∧
        0 < IFNAMSIZ - (name.take 15).length ∧
        ((∀ b ∈ name, b ≠ 0) → cstr req.path.interface_name = name.take 15) ∧
        (name.length ≤ 15 → name.take 15 = name) ∧
        (name.length = IFNAMSIZ → name.take 15 ≠ name) ∧
        (a.argz_ret = 0 → 0 ≤ w.connect_ret →
          sends (gt_path MUD_PATH_MAX little_endian w a).world.events =
            sends w.events + 1)) ∧
    (IFNAMSIZ + 1 ≤ name.length →
      ∃ w' : World,
        gt_path MUD_PATH_MAX little_endian w a = Outcome.ret 1 w' ∧
        sends w'.events = sends w.events ∧
        recvs w'.events = recvs w.events) := by
  constructor
  · intro hlen
    have hreq := gt_path_req_named little_endian a name hname hlen
    obtain ⟨_, hn, _, _, _⟩ := req_fill_fields little_endian a
      (gt_path_req_ifname name (gt_path_req_init a))
    have hbuf : (gt_path_req_fill little_endian a
        (gt_path_req_ifname name (gt_path_req_init a))).path.interface_name =
        name.take 15 ++ List.replicate (IFNAMSIZ - (name.take 15).length) 0 := by
      rw [hn]
      exact strncpy_ifname name
    have hpos : 0 < IFNAMSIZ - (name.take 15).length := by
      simp only [IFNAMSIZ, List.length_take]
      omega
    refine ⟨_, hreq, hbuf, hpos, ?_, ?_, ?_, ?_⟩
    · intro hnz
      rw [hbuf]
      exact cstr_padded _ _ (fun b hb => hnz b (List.mem_of_mem_take hb)) hpos
    · intro h15
      exact List.take_of_length_le h15
    · intro h16 heq
      have := congrArg List.length heq
      simp only [List.length_take, h16, IFNAMSIZ] at this
      omega
    · intro hargz hfd
      exact gt_path_accepted_sends MUD_PATH_MAX little_endian w a _ hargz hfd hreq
  · intro hlen
    obtain ⟨w', h1, h2, h3, _⟩ := gt_path_refused MUD_PATH_MAX little_endian w a _
      (gt_path_req_too_long little_endian a name hname (by omega))
    exact ⟨w', h1, h2, h3⟩

/-- Instances of C8: a name of 16 bytes is accepted and truncated to its first
15 bytes, a name of 17 bytes is refused without send or receive. -/
theorem gt_path_ifname_length_witness :
    (∃ req : ctl_msg,
        gt_path_req true args_name16 = Except.ok req ∧
        req.path.interface_name =
          name16.take 15 ++ List.replicate (IFNAMSIZ - (name16.take 15).length) 0 ∧
        0 < IFNAMSIZ - (name16.take 15).length ∧
        ((∀ b ∈ name16, b ≠ 0) → cstr req.path.interface_name = name16.take 15) ∧
        (name16.length ≤ 15 → name16.take 15 = name16) ∧
        (name16.length = IFNAMSIZ → name16.take 15 ≠ name16) ∧
        (args_name16.argz_ret = 0 → 0 ≤ daemon_two.connect_ret →
          sends (gt_path 32 true daemon_two args_name16).world.events =
            sends daemon_two.events + 1)) ∧
    (∃ w' : World,
        gt_path 32 true daemon_two args_name17 = Outcome.ret 1 w' ∧
        sends w'.events = sends daemon_two.events ∧
        recvs w'.events = recvs daemon_two.events) :=
  ⟨(gt_path_ifname_length 32 true daemon_two args_name16 name16 rfl).1 (by decide),
   (gt_path_ifname_length 32 true daemon_two args_name17 name17 rfl).2 (by decide)⟩

/-- C3 (evaluation of the code): `path eth0`, with no flag, in front of a daemon
that sends the records of `eth0` and `eth1`. No STATE request is sent, only the
PATH_STATUS request, whose name array is empty; the command returns 0; and both
records are handed to the formatter, although the name of the second one is not
the requested name: the name filter compares with the name of the local
request of `gt_path_status`, which is always empty, not with its parameter. -/
theorem gt_path_ifname_filter_not_applied :
    ∃ w' : World,
      gt_path 32 true daemon_two args_eth0 = Outcome.ret 0 w' ∧
      sent w'.events = [gt_path_status_req] ∧
      strlen gt_path_status_req.path.interface_name = 0 ∧
      printed w'.events = [rec_eth0, rec_eth1] ∧
      cstr rec_eth0.interface_name = eth0 ∧
      cstr rec_eth1.interface_name ≠ eth0 :=
  ⟨_, rfl, rfl, rfl, rfl, rfl, by decide⟩

/-- C9 (evaluation of the code): with an open channel (descriptor 3), `path beat
1000` and `path abcdefghijklmnopq` return 1 at the validation without any call
of `ctl_delete`, whereas `path eth0`, which reaches the end of the function,
calls it once. -/
theorem gt_path_validation_failure_leaves_channel_open :
    (∃ w' : World,
      gt_path 32 true daemon_two args_beat = Outcome.ret 1 w' ∧
      w'.events = [Event.ctl_connect 3, Event.gt_log LogMsg.please_specify_an_interface] ∧
      deletes w'.events = 0) ∧
    (∃ w' : World,
      gt_path 32 true daemon_two args_name17 = Outcome.ret 1 w' ∧
      w'.events = [Event.ctl_connect 3, Event.gt_log LogMsg.interface_name_too_long] ∧
      deletes w'.events = 0) ∧
    (∃ w' : World,
      gt_path 32 true daemon_two args_eth0 = Outcome.ret 0 w' ∧
      deletes w'.events = 1) :=
  ⟨⟨_, rfl, rfl, rfl⟩, ⟨_, rfl, rfl, rfl⟩, ⟨_, rfl, rfl⟩⟩

end Glorytun
